import Mathlib

/-
Verification of the session-engine core of the mexc-sdk-go repository:
the settlement primitive (internal/wsutil promise), the spot market
session (spot/wsmarket), the futures user session (futures/wsuser),
the websocket client (ws), and the atomic counter (internal/sync).
Each definition is a shallow embedding of the corresponding Go code.
-/

set_option maxRecDepth 4000

/-- A non-nil Go error value, abstracted as its message string. -/
abbrev GoErr := String

namespace Wsutil

/-- PromiseErrSource from internal/wsutil (part_020): FromUnknown, FromServer, FromContext. -/
inductive PromiseErrSource where
  | fromUnknown
  | fromServer
  | fromContext
deriving DecidableEq, Repr

/-- PromiseError from internal/wsutil: a source tag plus the wrapped error. -/
structure PromiseError where
  source : PromiseErrSource
  err : GoErr
deriving DecidableEq, Repr

/-- promiseImp from internal/wsutil: the match predicate, the two buffered
channels of capacity one (resCh, errCh) modelled as option cells, and the
sync.Once guard modelled as a boolean flag. -/
structure PromiseImp (T : Type) where
  matchFn : T → Bool × Option GoErr
  resCh : Option T
  errCh : Option GoErr
  onceFired : Bool

/-- NewPromise: an unsettled promise with empty channels and an unfired once guard. -/
def newPromise {T : Type} (matchFn : T → Bool × Option GoErr) : PromiseImp T :=
  { matchFn := matchFn, resCh := none, errCh := none, onceFired := false }

/-- Resolve: once.Do sending msg on resCh; a no-op if the once guard already fired. -/
def resolve {T : Type} (p : PromiseImp T) (msg : T) : PromiseImp T :=
  if p.onceFired then p else { p with onceFired := true, resCh := some msg }

/-- Reject: once.Do sending err on errCh; a no-op if the once guard already fired. -/
def reject {T : Type} (p : PromiseImp T) (e : GoErr) : PromiseImp T :=
  if p.onceFired then p else { p with onceFired := true, errCh := some e }

/-- Match: evaluate the predicate on the message. -/
def matchMsg {T : Type} (p : PromiseImp T) (msg : T) : Bool × Option GoErr :=
  p.matchFn msg

/-- Result of Await: the resolved value, a PromiseError, or no return (the
select blocks because nothing is ready). -/
inductive AwaitResult (T : Type) where
  | ok (v : T)
  | promiseErr (e : PromiseError)
  | blocked
deriving Repr

/-- Await: the select over resCh, errCh and ctx.Done. ctxDone says whether the
context is already done (its error being ctxErr); preferCtx resolves the
select nondeterminism when both a settled channel and the done context are
ready at once. -/
def await {T : Type} (p : PromiseImp T) (ctxDone : Bool) (ctxErr : GoErr)
    (preferCtx : Bool) : AwaitResult T :=
  if ctxDone && preferCtx then
    .promiseErr { source := .fromContext, err := ctxErr }
  else
    match p.resCh with
    | some v => .ok v
    | none =>
      match p.errCh with
      | some e => .promiseErr { source := .fromServer, err := e }
      | none =>
        if ctxDone then .promiseErr { source := .fromContext, err := ctxErr }
        else .blocked

/-- One settlement call made by a client of the promise. -/
inductive SettleCall (T : Type) where
  | resolveC (v : T)
  | rejectC (e : GoErr)

/-- Apply one settlement call to the promise state. -/
def applyCall {T : Type} (p : PromiseImp T) : SettleCall T → PromiseImp T
  | .resolveC v => resolve p v
  | .rejectC e => reject p e

/-- Apply a sequence of settlement calls in order. -/
def applyCalls {T : Type} (p : PromiseImp T) (cs : List (SettleCall T)) : PromiseImp T :=
  cs.foldl applyCall p

/-- Observable settlement state of a promise. -/
inductive SettleState (T : Type) where
  | pending
  | resolved (v : T)
  | rejected (e : GoErr)
deriving Repr

/-- Read off the settlement state from the channel contents. -/
def stateOf {T : Type} (p : PromiseImp T) : SettleState T :=
  match p.resCh with
  | some v => .resolved v
  | none =>
    match p.errCh with
    | some e => .rejected e
    | none => .pending

theorem applyCall_of_fired {T : Type} (p : PromiseImp T) (h : p.onceFired = true)
    (c : SettleCall T) : applyCall p c = p := by
  cases c <;> simp [applyCall, resolve, reject, h]

theorem applyCall_fires {T : Type} (m : T → Bool × Option GoErr) (c : SettleCall T) :
    (applyCall (newPromise m) c).onceFired = true := by
  cases c <;> simp [applyCall, resolve, reject, newPromise]

theorem applyCalls_of_fired {T : Type} (p : PromiseImp T) (h : p.onceFired = true)
    (cs : List (SettleCall T)) : applyCalls p cs = p := by
  induction cs with
  | nil => rfl
  | cons c cs ih =>
    simp only [applyCalls, List.foldl_cons, applyCall_of_fired p h c]
    exact ih

end Wsutil

/-- Claim C1: for every promise and every sequence of Resolve and Reject calls,
only the first settlement call has any observable effect: the state moves from
pending to exactly one of resolved or rejected according to the first call,
every later Resolve or Reject is a no-op (the state after the whole sequence
equals the state after the first call alone), and a subsequent Await (with the
context still live) returns the outcome of that first call. -/
theorem promise_first_settlement_wins {T : Type} (m : T → Bool × Option GoErr)
    (c : Wsutil.SettleCall T) (cs : List (Wsutil.SettleCall T)) :
    Wsutil.stateOf (Wsutil.newPromise m) = .pending
    ∧ Wsutil.applyCalls (Wsutil.newPromise m) (c :: cs)
        = Wsutil.applyCall (Wsutil.newPromise m) c
    ∧ Wsutil.stateOf (Wsutil.applyCall (Wsutil.newPromise m) c)
        = (match c with
           | .resolveC v => .resolved v
           | .rejectC e => .rejected e)
    ∧ Wsutil.await (Wsutil.applyCalls (Wsutil.newPromise m) (c :: cs)) false "ctx" false
        = (match c with
           | .resolveC v => .ok v
           | .rejectC e => .promiseErr { source := .fromServer, err := e }) := by
  have hfired := Wsutil.applyCall_fires m c
  have hseq : Wsutil.applyCalls (Wsutil.newPromise m) (c :: cs)
      = Wsutil.applyCall (Wsutil.newPromise m) c := by
    simp only [Wsutil.applyCalls, List.foldl_cons]
    exact Wsutil.applyCalls_of_fired _ hfired cs
  refine ⟨rfl, hseq, ?_, ?_⟩
  · cases c <;> simp [Wsutil.applyCall, Wsutil.resolve, Wsutil.reject,
      Wsutil.newPromise, Wsutil.stateOf]
  · rw [hseq]
    cases c <;> simp [Wsutil.applyCall, Wsutil.resolve, Wsutil.reject,
      Wsutil.newPromise, Wsutil.await]

/-- SDK error kinds used by errFactory in the session code (sdkerr package). -/
inductive SDKKind where
  | wsConnection
  | wsClose
  | wsRead
  | wsWrite
  | wsMessageTimeout
  | wsServerError
deriving DecidableEq, Repr

/-- Outcome of sendAndAwaitResponse after the Await returns: success, a typed
SDK error, the panic branch for a non promise error, or no return at all
(the Await blocked). -/
inductive SendAwaitResult where
  | success
  | sdkErr (k : SDKKind) (m : GoErr)
  | panicked
  | stuck
deriving DecidableEq, Repr

/-- The error mapping at the end of sendAndAwaitResponse (identical in
spot/wsmarket and futures/wsuser): a PromiseError with Source FromContext
becomes ErrWSMessageTimeout, with Source FromServer becomes ErrWSServerError,
any other shape hits the panic branch. -/
def mapAwaitOutcome {T : Type} : Wsutil.AwaitResult T → SendAwaitResult
  | .ok _ => .success
  | .promiseErr pe =>
    match pe.source with
    | .fromContext => .sdkErr .wsMessageTimeout pe.err
    | .fromServer => .sdkErr .wsServerError pe.err
    | .fromUnknown => .panicked
  | .blocked => .stuck

/-- Claim C3: a failure of sendAndAwaitResponse is always one of two
distinguishable kinds: deadline expiry of an unsettled promise yields the
timeout kind ErrWSMessageTimeout, a rejected promise with the context still
live yields the server kind ErrWSServerError, every SDK error produced is one
of these two (and they are distinct constructors), the timeout kind arises
only from a done context, and the server kind only from a value on the error
channel. -/
theorem send_await_error_kinds {T : Type} (p : Wsutil.PromiseImp T)
    (ctxDone : Bool) (ctxErr : GoErr) (pc : Bool) :
    (p.resCh = none → p.errCh = none → ctxDone = true →
       mapAwaitOutcome (Wsutil.await p ctxDone ctxErr pc)
         = .sdkErr .wsMessageTimeout ctxErr)
    ∧ (∀ e, p.resCh = none → p.errCh = some e → ctxDone = false →
       mapAwaitOutcome (Wsutil.await p ctxDone ctxErr pc)
         = .sdkErr .wsServerError e)
    ∧ (∀ k m2, mapAwaitOutcome (Wsutil.await p ctxDone ctxErr pc) = .sdkErr k m2 →
       k = SDKKind.wsMessageTimeout ∨ k = SDKKind.wsServerError)
    ∧ SDKKind.wsMessageTimeout ≠ SDKKind.wsServerError
    ∧ (∀ m2, mapAwaitOutcome (Wsutil.await p ctxDone ctxErr pc)
         = .sdkErr .wsMessageTimeout m2 → ctxDone = true)
    ∧ (∀ m2, mapAwaitOutcome (Wsutil.await p ctxDone ctxErr pc)
         = .sdkErr .wsServerError m2 → p.errCh = some m2) := by
  unfold Wsutil.await mapAwaitOutcome
  cases hr : p.resCh <;> cases he : p.errCh <;> cases ctxDone <;> cases pc <;>
    simp_all

/-- Witness for C3 at a concrete promise: an unsettled promise awaited under an
expired context maps to the timeout kind. -/
theorem send_await_error_kinds_witness :
    mapAwaitOutcome
      (Wsutil.await (Wsutil.newPromise (T := Nat) (fun _ => (true, none)))
        true "context deadline exceeded" false)
      = .sdkErr .wsMessageTimeout "context deadline exceeded" :=
  (send_await_error_kinds (Wsutil.newPromise (fun _ => (true, none)))
    true "context deadline exceeded" false).1 rfl rfl rfl

namespace Spot

/-- JSON control message of spot/wsmarket: id, code, msg. -/
structure Message where
  id : Nat
  code : Int
  msg : String
deriving DecidableEq, Repr

/-- A subscription spec as seen by the spot session: its stable key (id())
and its matches() predicate used for the acknowledgment promise. -/
structure SubSpec where
  key : String
  matchesFn : Message → Bool × Option GoErr

/-- Lookup in the promisesMap (a Go map keyed by uint64 request id). -/
def lookupProm (m : List (Nat × Wsutil.PromiseImp Message)) (k : Nat) :
    Option (Wsutil.PromiseImp Message) :=
  match m with
  | [] => none
  | (k2, p) :: rest => if k2 = k then some p else lookupProm rest k

/-- Go map store: replace the entry for the key, or append a new entry. -/
def insertProm (m : List (Nat × Wsutil.PromiseImp Message)) (k : Nat)
    (p : Wsutil.PromiseImp Message) : List (Nat × Wsutil.PromiseImp Message) :=
  match m with
  | [] => [(k, p)]
  | (k2, q) :: rest =>
    if k2 = k then (k2, p) :: rest else (k2, q) :: insertProm rest k p

/-- Go map delete: remove the entry for the key. -/
def deleteProm (m : List (Nat × Wsutil.PromiseImp Message)) (k : Nat) :
    List (Nat × Wsutil.PromiseImp Message) :=
  m.filter (fun q => q.1 != k)

/-- Session state of spot/wsmarket WSMarket: the active subscription keys,
the pending promise map, the router registry, the atomic id counter value,
and the log of frames written to the transport. -/
structure SpotSession where
  activeSubs : List String
  promisesMap : List (Nat × Wsutil.PromiseImp Message)
  router : List SubSpec
  counter : Nat
  written : List String

/-- Error the server reports through a non matching reply, as formatted by
handleJSONMessage in spot/wsmarket. -/
def serverCodeErr (code : Int) (msg : String) : GoErr :=
  "code=" ++ toString code ++ ", msg=" ++ msg

/-- handleJSONMessage from spot/wsmarket: look the promise up by the frame id;
if absent do nothing; otherwise evaluate Match and Resolve on true, Reject on
false. The error returned by Match is discarded, and the frame is never
offered to the router. -/
def handleJSONMessage (s : SpotSession) (msg : Message) : SpotSession :=
  match lookupProm s.promisesMap msg.id with
  | none => s
  | some p =>
    if (Wsutil.matchMsg p msg).1 then
      { s with promisesMap :=
          (insertProm s.promisesMap msg.id (Wsutil.resolve p msg)) }
    else
      { s with promisesMap :=
          (insertProm s.promisesMap msg.id
            (Wsutil.reject p (serverCodeErr msg.code msg.msg))) }

/-- Whether the promise registered under the key has had its once guard fired. -/
def settledAt (s : SpotSession) (k : Nat) : Bool :=
  match lookupProm s.promisesMap k with
  | some p => p.onceFired
  | none => false

/-- Whether the promise registered under the key holds a rejection error. -/
def rejectedAt (s : SpotSession) (k : Nat) : Bool :=
  match lookupProm s.promisesMap k with
  | some p => p.errCh.isSome
  | none => false

/-- maxCountSubscribes for spot market streams. -/
def maxCountSubscribes : Nat := 30

/-- Typed session errors produced by the spot session paths. -/
inductive SessionErr where
  | duplicate (key : String)
  | limitExceeded
  | wsWrite (e : GoErr)
  | wsMessageTimeout (e : GoErr)
  | wsServerError (e : GoErr)
  | wsClose (e : GoErr)
deriving DecidableEq, Repr

/-- Environment oracle for one sendAndAwaitResponse call: what the write and
the subsequent Await come back with. -/
inductive AwaitEnv where
  | ok
  | serverReject (e : GoErr)
  | ctxExpired (e : GoErr)
  | writeFail (e : GoErr)
deriving DecidableEq, Repr

/-- sendAndAwaitResponse from spot/wsmarket, at the session level: register a
fresh promise under the request id, write the frame (unless the write fails),
await, and (deferred) delete the promise from the map; the await outcome is
mapped to ErrWSMessageTimeout or ErrWSServerError exactly as in the source. -/
def sendAndAwaitResponse (s : SpotSession) (reqId : Nat) (reqMsg : String)
    (matchFn : Message → Bool × Option GoErr) (env : AwaitEnv) :
    SpotSession × Option SessionErr :=
  let m1 := insertProm s.promisesMap reqId (Wsutil.newPromise matchFn)
  match env with
  | .writeFail e =>
    ({ s with promisesMap := deleteProm m1 reqId }, some (.wsWrite e))
  | .ok =>
    ({ s with promisesMap := deleteProm m1 reqId, written := s.written ++ [reqMsg] }, none)
  | .serverReject e =>
    ({ s with promisesMap := deleteProm m1 reqId, written := s.written ++ [reqMsg] },
      some (.wsServerError e))
  | .ctxExpired e =>
    ({ s with promisesMap := deleteProm m1 reqId, written := s.written ++ [reqMsg] },
      some (.wsMessageTimeout e))

/-- Serialized subscribe request frame (id and key are what matter here). -/
def subReqMsg (reqId : Nat) (key : String) : String :=
  "SUBSCRIPTION id=" ++ toString reqId ++ " " ++ key

/-- The uint64 modulus. -/
def UINT64MOD : Nat := 2 ^ 64

/-- Counter.Inc from internal/sync: atomic add of one on a uint64, returning
the new value. -/
def counterInc (v : Nat) : Nat := (v + 1) % UINT64MOD

/-- Subscribe from spot/wsmarket: reject duplicates, then reject when the
router already holds maxCountSubscribes entries, then create a correlated
request with a fresh id, send and await it, and only on success record the
handle and register the spec with the router. -/
def subscribe (s : SpotSession) (sub : SubSpec) (env : AwaitEnv) :
    SpotSession × Option SessionErr :=
  if sub.key ∈ s.activeSubs then
    (s, some (.duplicate sub.key))
  else if maxCountSubscribes ≤ s.router.length then
    (s, some .limitExceeded)
  else
    let reqId := counterInc s.counter
    let s1 := { s with counter := reqId }
    let res := sendAndAwaitResponse s1 reqId (subReqMsg reqId sub.key) sub.matchesFn env
    match res.2 with
    | some e => (res.1, some e)
    | none =>
      ({ res.1 with activeSubs := res.1.activeSubs ++ [sub.key], router := res.1.router ++ [sub] },
        none)

end Spot

/-- A pending promise whose predicate accepts nothing (returns false for every
frame), registered under request id 1. -/
def c2prom : Wsutil.PromiseImp Spot.Message :=
  Wsutil.newPromise (fun _ => (false, none))

/-- A spot session with exactly that one pending promise. -/
def c2session : Spot.SpotSession :=
  { activeSubs := [], promisesMap := [(1, c2prom)], router := [], counter := 1,
    written := [] }

/-- A JSON control frame whose id is 1 and whose code signals an error. -/
def c2msg : Spot.Message := { id := 1, code := 5, msg := "bad request" }

/-- Counterexample to claim C2: in the spot market engine, a frame whose id
matches a pending promise but whose match predicate returns accepted=false is
not left unsettled and offered elsewhere; handleJSONMessage settles the
promise by rejecting it (its once guard fires and its error channel is
filled), and the router is untouched because JSON frames are never routed. -/
theorem spot_reject_on_unmatched_frame :
    Spot.settledAt (Spot.handleJSONMessage c2session c2msg) 1 = true
    ∧ Spot.rejectedAt (Spot.handleJSONMessage c2session c2msg) 1 = true
    ∧ (Spot.handleJSONMessage c2session c2msg).router.length = 0 := by
  refine ⟨rfl, rfl, rfl⟩

namespace FWsuser

/-- JSON message of futures/wsuser: channel, raw data, symbol, timestamp. -/
structure UserMessage where
  channel : String
  data : String
  symbol : String
  ts : Int
deriving DecidableEq, Repr

/-- The part of the WSUser state that handleMessage touches: the single
pending promise slot, and the log of frames handed to router.Route. -/
structure UserSession where
  promise : Option (Wsutil.PromiseImp UserMessage)
  routed : List UserMessage

/-- handleMessage from futures/wsuser: if a promise is pending, evaluate its
Match; on accepted with no error Resolve, on accepted with an error Reject,
and in both cases return without routing; otherwise hand the frame to
router.Route. -/
def handleMessage (s : UserSession) (msg : UserMessage) : UserSession :=
  match s.promise with
  | some p =>
    match Wsutil.matchMsg p msg with
    | (true, none) => { s with promise := some (Wsutil.resolve p msg) }
    | (true, some e) => { s with promise := some (Wsutil.reject p e) }
    | (false, _) => { s with routed := s.routed ++ [msg] }
  | none => { s with routed := s.routed ++ [msg] }

end FWsuser

/-- Claim C2 as amended: in the futures user-stream engine, a frame on which
the pending promise predicate returns accepted=false leaves the promise
untouched and hands the frame to the router; the promise is rejected exactly
when the predicate accepts the frame and itself reports an error, and resolved
when it accepts with no error, in both cases without routing the frame. (In
the spot market engine the promise is instead found by frame id and rejected
outright when its predicate returns accepted=false, without any routing.) -/
theorem user_unmatched_frame_routed (s : FWsuser.UserSession)
    (p : Wsutil.PromiseImp FWsuser.UserMessage) (m : FWsuser.UserMessage) :
    (s.promise = some p → (p.matchFn m).1 = false →
      FWsuser.handleMessage s m = { s with routed := s.routed ++ [m] })
    ∧ (s.promise = some p → ∀ e, p.matchFn m = (true, some e) →
      FWsuser.handleMessage s m = { s with promise := some (Wsutil.reject p e) })
    ∧ (s.promise = some p → p.matchFn m = (true, none) →
      FWsuser.handleMessage s m = { s with promise := some (Wsutil.resolve p m) }) := by
  refine ⟨?_, ?_, ?_⟩
  · intro hp hm
    simp only [FWsuser.handleMessage, hp, Wsutil.matchMsg]
    rcases hmm : p.matchFn m with ⟨b, e⟩
    rw [hmm] at hm
    simp at hm
    subst hm
    rfl
  · intro hp e hm
    simp only [FWsuser.handleMessage, hp, Wsutil.matchMsg, hm]
  · intro hp hm
    simp only [FWsuser.handleMessage, hp, Wsutil.matchMsg, hm]

/-- A pending futures user promise accepting nothing. -/
def c2userProm : Wsutil.PromiseImp FWsuser.UserMessage :=
  Wsutil.newPromise (fun _ => (false, none))

/-- A futures user session holding that promise. -/
def c2userSession : FWsuser.UserSession :=
  { promise := some c2userProm, routed := [] }

/-- A push frame the promise predicate does not accept. -/
def c2userMsg : FWsuser.UserMessage :=
  { channel := "push.deal", data := "d", symbol := "BTC_USDT", ts := 7 }

/-- Witness for amended C2: on a concrete session, a frame the pending promise
does not accept is handed to the router and the promise slot is unchanged. -/
theorem user_unmatched_frame_routed_witness :
    FWsuser.handleMessage c2userSession c2userMsg
      = { c2userSession with routed := c2userSession.routed ++ [c2userMsg] } :=
  (user_unmatched_frame_routed c2userSession c2userProm c2userMsg).1 rfl rfl

/-- Claim C4: when a subscription with the same key is already active, a
second Subscribe fails with the duplicate-subscription error and returns the
session state unchanged in every field: active map, promise map, router,
counter and written frames. -/
theorem subscribe_duplicate_rejected (s : Spot.SpotSession) (sub : Spot.SubSpec)
    (env : Spot.AwaitEnv) (h : sub.key ∈ s.activeSubs) :
    Spot.subscribe s sub env = (s, some (.duplicate sub.key)) := by
  simp [Spot.subscribe, h]

/-- A spec for the spot deals channel, with a trivially accepting predicate. -/
def c4sub : Spot.SubSpec :=
  { key := "spot@public.aggre.deals.v3.api.pb@100ms@BTCUSDT",
    matchesFn := fun _ => (true, none) }

/-- A session on which c4sub is already active. -/
def c4session : Spot.SpotSession :=
  { activeSubs := ["spot@public.aggre.deals.v3.api.pb@100ms@BTCUSDT"],
    promisesMap := [], router := [c4sub], counter := 3, written := [] }

/-- Witness for C4 at a concrete session: the second Subscribe for the active
key returns the duplicate error and the very same state. -/
theorem subscribe_duplicate_rejected_witness :
    Spot.subscribe c4session c4sub .ok = (c4session, some (.duplicate c4sub.key)) :=
  subscribe_duplicate_rejected c4session c4sub .ok (by decide)

/-- A router entry with a numbered channel key. -/
def mkChanSpec (i : Nat) : Spot.SubSpec :=
  { key := "chan" ++ toString i, matchesFn := fun _ => (true, none) }

/-- Thirty distinct registered router entries. -/
def c5router : List Spot.SubSpec := (List.range 30).map mkChanSpec

/-- A session whose router is at the 30-entry limit and on which the key
"chan7" is also already active. -/
def c5session : Spot.SpotSession :=
  { activeSubs := ["chan7"], promisesMap := [], router := c5router,
    counter := 0, written := [] }

/-- The spec for the already-active key. -/
def c5sub : Spot.SubSpec := { key := "chan7", matchesFn := fun _ => (true, none) }

/-- Counterexample to claim C5: a session state whose router count is at the
maximum on which Subscribe does not fail with the subscription-limit error:
the duplicate check runs first, so the call fails with the duplicate error
instead. -/
theorem subscribe_limit_not_always_reported :
    Spot.maxCountSubscribes ≤ c5session.router.length
    ∧ (Spot.subscribe c5session c5sub .ok).2 = some (.duplicate "chan7")
    ∧ some (Spot.SessionErr.duplicate "chan7") ≠ some Spot.SessionErr.limitExceeded := by
  refine ⟨by decide, rfl, by decide⟩

theorem sendAndAwait_keeps_subs (s : Spot.SpotSession) (reqId : Nat)
    (reqMsg : String) (mf : Spot.Message → Bool × Option GoErr)
    (env : Spot.AwaitEnv) :
    (Spot.sendAndAwaitResponse s reqId reqMsg mf env).1.router = s.router
    ∧ (Spot.sendAndAwaitResponse s reqId reqMsg mf env).1.activeSubs = s.activeSubs := by
  cases env <;> exact ⟨rfl, rfl⟩

/-- Claim C5 as amended: provided the key is not already active (the duplicate
check takes precedence), a session whose router count is at least the maximum
of 30 fails Subscribe with the subscription-limit error and the state is
returned unchanged; moreover, whenever Subscribe returns any error the router
and the active-subscription map are unchanged, and the spec is registered with
the router exactly when Subscribe succeeds, which happens only after the
acknowledgment await comes back clean. -/
theorem subscribe_limit_guard (s : Spot.SpotSession) (sub : Spot.SubSpec)
    (env : Spot.AwaitEnv) :
    (sub.key ∉ s.activeSubs →
       Spot.maxCountSubscribes ≤ s.router.length →
       Spot.subscribe s sub env = (s, some .limitExceeded))
    ∧ (∀ e, (Spot.subscribe s sub env).2 = some e →
       (Spot.subscribe s sub env).1.router = s.router
       ∧ (Spot.subscribe s sub env).1.activeSubs = s.activeSubs)
    ∧ ((Spot.subscribe s sub env).2 = none →
       (Spot.subscribe s sub env).1.router = s.router ++ [sub]
       ∧ (Spot.subscribe s sub env).1.activeSubs = s.activeSubs ++ [sub.key]
       ∧ env = .ok) := by
  refine ⟨?_, ?_, ?_⟩
  · intro hc hlen
    simp [Spot.subscribe, hc, hlen]
  · intro e
    by_cases hc : sub.key ∈ s.activeSubs
    · simp [Spot.subscribe, hc]
    · by_cases hlen : Spot.maxCountSubscribes ≤ s.router.length
      · simp [Spot.subscribe, hc, hlen]
      · cases env <;>
          simp [Spot.subscribe, Spot.sendAndAwaitResponse, hc, hlen]
  · by_cases hc : sub.key ∈ s.activeSubs
    · simp [Spot.subscribe, hc]
    · by_cases hlen : Spot.maxCountSubscribes ≤ s.router.length
      · simp [Spot.subscribe, hc, hlen]
      · cases env <;>
          simp [Spot.subscribe, Spot.sendAndAwaitResponse, hc, hlen]

/-- A session at the router limit whose incoming key is fresh. -/
def c5freshSession : Spot.SpotSession :=
  { activeSubs := [], promisesMap := [], router := c5router, counter := 0,
    written := [] }

/-- A spec whose key is not active on c5freshSession. -/
def c5freshSub : Spot.SubSpec :=
  { key := "chanNew", matchesFn := fun _ => (true, none) }

/-- Witness for amended C5: on a concrete full session with a fresh key,
Subscribe fails with the limit error and returns the state unchanged. -/
theorem subscribe_limit_guard_witness :
    Spot.subscribe c5freshSession c5freshSub .ok
      = (c5freshSession, some .limitExceeded) :=
  (subscribe_limit_guard c5freshSession c5freshSub .ok).1 (by decide) (by decide)

namespace WsCli

/-- State of the ws clientImp relevant to Close: whether conn is non nil,
whether its closeOnce guard fired, the recorded close error, and how many
times conn.Close() was actually invoked. -/
structure ClientState where
  conn : Bool
  closeOnce : Bool
  closeErr : Option GoErr
  closeCount : Nat
deriving DecidableEq, Repr

/-- clientImp.Close from ws/methods.go: outside the once guard return the
recorded error; inside it, panic when conn is nil, otherwise close the
connection once and record a non nil (classified) error. The transport close
outcome te is supplied by the environment, already classified at the
transport boundary. -/
def clientClose (c : ClientState) (te : Option GoErr) :
    Except String (ClientState × Option GoErr) :=
  if c.closeOnce then .ok (c, c.closeErr)
  else if c.conn = false then
    .error "Close: cannot call Close before successful Connect"
  else
    .ok ({ conn := c.conn, closeOnce := true, closeErr := te,
           closeCount := c.closeCount + 1 }, te)

/-- State of spot/wsmarket WSMarket relevant to Close: its own once guard and
recorded error, over the client state. -/
structure MarketCloseState where
  client : ClientState
  closeOnce : Bool
  closeErr : Option Spot.SessionErr

/-- WSMarket.Close from spot/wsmarket: under its own once guard call
client.Close and record a non nil result wrapped as an ErrWSClose session
error; afterwards always return the recorded error. A panic from the client
propagates. -/
def wsmarketClose (w : MarketCloseState) (te : Option GoErr) :
    Except String (MarketCloseState × Option Spot.SessionErr) :=
  if w.closeOnce then .ok (w, w.closeErr)
  else
    match clientClose w.client te with
    | .error p => .error p
    | .ok (c2, cerr) =>
      let werr := cerr.map (fun e => Spot.SessionErr.wsClose e)
      .ok ({ client := c2, closeOnce := true, closeErr := werr }, werr)

/-- Iterate n Close calls, threading the state (a panic leaves the state). -/
def wsmarketCloseIter (te : Option GoErr) : Nat → MarketCloseState → MarketCloseState
  | 0, w => w
  | n + 1, w =>
    match wsmarketClose w te with
    | .ok (w2, _) => wsmarketCloseIter te n w2
    | .error _ => w

/-- The value a single Close call returns (or the panic it raises). -/
def wsmarketCloseResult (w : MarketCloseState) (te : Option GoErr) :
    Except String (Option Spot.SessionErr) :=
  (wsmarketClose w te).map (fun r => r.2)

theorem wsmarketClose_fresh (w : MarketCloseState) (te : Option GoErr)
    (hconn : w.client.conn = true) (h1 : w.closeOnce = false)
    (h2 : w.client.closeOnce = false) :
    wsmarketClose w te =
      .ok ({ client := { conn := true, closeOnce := true, closeErr := te,
                         closeCount := w.client.closeCount + 1 },
             closeOnce := true,
             closeErr := te.map (fun e => Spot.SessionErr.wsClose e) },
           te.map (fun e => Spot.SessionErr.wsClose e)) := by
  simp [wsmarketClose, clientClose, h1, h2, hconn]

theorem wsmarketClose_again (w : MarketCloseState) (te : Option GoErr)
    (h : w.closeOnce = true) : wsmarketClose w te = .ok (w, w.closeErr) := by
  simp [wsmarketClose, h]

theorem wsmarketCloseIter_fixed (te : Option GoErr) (w : MarketCloseState)
    (h : w.closeOnce = true) : ∀ n, wsmarketCloseIter te n w = w := by
  intro n
  induction n with
  | zero => rfl
  | succ n ih =>
    simp [wsmarketCloseIter, wsmarketClose_again w te h]
    exact ih

/-- Claim C6: Close is idempotent. Starting from a connected session on which
Close has not yet run, any number of Close calls leaves the underlying
transport closed exactly once (closeCount is one after every nonzero number
of calls), the first transport result is recorded, and every single call in
the sequence, first or later, returns exactly that same first result. -/
theorem close_idempotent (w : MarketCloseState) (te : Option GoErr)
    (hconn : w.client.conn = true) (h1 : w.closeOnce = false)
    (h2 : w.client.closeOnce = false) (h3 : w.client.closeCount = 0) :
    ∀ n, (wsmarketCloseIter te (n + 1) w).client.closeCount = 1
    ∧ (wsmarketCloseIter te (n + 1) w).closeErr
        = te.map (fun e => Spot.SessionErr.wsClose e)
    ∧ wsmarketCloseResult (wsmarketCloseIter te n w) te
        = .ok (te.map (fun e => Spot.SessionErr.wsClose e)) := by
  have hfirst := wsmarketClose_fresh w te hconn h1 h2
  set w1 : MarketCloseState :=
    { client := { conn := true, closeOnce := true, closeErr := te,
                  closeCount := w.client.closeCount + 1 },
      closeOnce := true,
      closeErr := te.map (fun e => Spot.SessionErr.wsClose e) } with hw1
  have hstep : ∀ n, wsmarketCloseIter te (n + 1) w = w1 := by
    intro n
    simp only [wsmarketCloseIter, hfirst]
    exact wsmarketCloseIter_fixed te w1 rfl n
  intro n
  refine ⟨?_, ?_, ?_⟩
  · rw [hstep n, hw1]
    simp [h3]
  · rw [hstep n, hw1]
  · cases n with
    | zero =>
      simp only [wsmarketCloseIter, wsmarketCloseResult, hfirst, Except.map]
    | succ k =>
      rw [hstep k]
      simp only [wsmarketCloseResult, wsmarketClose_again w1 te rfl, Except.map]

/-- A connected, not yet closed session. -/
def c6session : MarketCloseState :=
  { client := { conn := true, closeOnce := false, closeErr := none,
                closeCount := 0 },
    closeOnce := false, closeErr := none }

/-- Witness for C6 at a concrete session whose transport close fails: after
three Close calls the transport was closed once and the third call still
returns the recorded first error. -/
theorem close_idempotent_witness :
    (wsmarketCloseIter (some "going away") 3 c6session).client.closeCount = 1
    ∧ wsmarketCloseResult (wsmarketCloseIter (some "going away") 2 c6session)
        (some "going away")
      = .ok (some (Spot.SessionErr.wsClose "going away")) :=
  ⟨(close_idempotent c6session (some "going away") rfl rfl rfl rfl 2).1,
   (close_idempotent c6session (some "going away") rfl rfl rfl rfl 2).2.2⟩

end WsCli

/-- Claim C9: on a session whose Connect never succeeded (the connection
handle is still nil) and whose once guards have not fired, calling Close does
not return an error: it panics with the programmer-error message from
ws/methods.go, even though Close is documented as safe to call multiple
times. -/
theorem close_before_connect_panics (w : WsCli.MarketCloseState)
    (te : Option GoErr) (hconn : w.client.conn = false)
    (h1 : w.closeOnce = false) (h2 : w.client.closeOnce = false) :
    WsCli.wsmarketClose w te
      = .error "Close: cannot call Close before successful Connect" := by
  simp [WsCli.wsmarketClose, WsCli.clientClose, h1, h2, hconn]

/-- A session constructed but never connected. -/
def c9session : WsCli.MarketCloseState :=
  { client := { conn := false, closeOnce := false, closeErr := none,
                closeCount := 0 },
    closeOnce := false, closeErr := none }

/-- Witness for C9: Close on the never-connected session panics. -/
theorem close_before_connect_panics_witness :
    WsCli.wsmarketClose c9session none
      = .error "Close: cannot call Close before successful Connect" :=
  close_before_connect_panics c9session none rfl rfl rfl

namespace WsCli

/-- One result handed from the reader goroutine to ReadMessage: the raw frame
bytes (as an opaque string) and an optional error. -/
structure MsgResult where
  msg : String
  err : Option GoErr
deriving DecidableEq, Repr

/-- The default capacity of the buffered output channel in ws.NewClient. -/
def defaultOutChCap : Nat := 1000

/-- sendOrDrop from ws/methods.go: the non-blocking select on the bounded
channel. If the buffer has room the new result is enqueued at the back;
otherwise the select falls to the default branch, which logs and discards the
newly arrived result, leaving the buffer as it was. Returns the new buffer
and whether the drop branch (with its log line) ran. -/
def sendOrDrop (cap : Nat) (buf : List MsgResult) (r : MsgResult) :
    List MsgResult × Bool :=
  if buf.length < cap then (buf ++ [r], false) else (buf, true)

end WsCli

/-- A full buffer of capacity one holding the older frame. -/
def c7buf : List WsCli.MsgResult := [{ msg := "older", err := none }]

/-- The newly arrived frame. -/
def c7new : WsCli.MsgResult := { msg := "newest", err := none }

/-- Counterexample to claim C7: with a full buffer, sendOrDrop does not drop
the oldest buffered frame and retain the newest; it drops the newly arrived
frame (logging the drop) and keeps the old buffer unchanged, so the newest
frame is the one lost. -/
theorem send_or_drop_keeps_oldest :
    WsCli.sendOrDrop 1 c7buf c7new = (c7buf, true)
    ∧ (WsCli.sendOrDrop 1 c7buf c7new).1 ≠ [c7new] := by
  refine ⟨rfl, by decide⟩

/-- Claim C7 as amended: when the bounded frame buffer is full on arrival of
a new frame, the newly arrived frame is the one dropped (and the drop is
logged), the previously buffered frames are all retained unchanged, and the
read path never blocks: when there is room the frame is enqueued at the back,
and in either case sendOrDrop returns immediately. -/
theorem send_or_drop_policy (cap : Nat) (buf : List WsCli.MsgResult)
    (r : WsCli.MsgResult) :
    (cap ≤ buf.length → WsCli.sendOrDrop cap buf r = (buf, true))
    ∧ (buf.length < cap → WsCli.sendOrDrop cap buf r = (buf ++ [r], false)) := by
  constructor
  · intro h
    have hnot : ¬ buf.length < cap := not_lt.mpr h
    simp [WsCli.sendOrDrop, hnot]
  · intro h
    simp [WsCli.sendOrDrop, h]

/-- Witness for amended C7: at the default capacity with room available the
frame is enqueued, and on a full capacity-one buffer the new frame is
dropped. -/
theorem send_or_drop_policy_witness :
    WsCli.sendOrDrop WsCli.defaultOutChCap [] c7new = ([c7new], false)
    ∧ WsCli.sendOrDrop 1 c7buf c7new = (c7buf, true) :=
  ⟨(send_or_drop_policy WsCli.defaultOutChCap [] c7new).2 (by decide),
   (send_or_drop_policy 1 c7buf c7new).1 (by decide)⟩

namespace Locks

/-- Primitive events of a session operation, in source order: taking and
releasing the two mutexes, mutating the guarded maps, writing a frame,
blocking on Promise.Await, and touching the router registry. -/
inductive LockEv where
  | lockSubsMu
  | unlockSubsMu
  | lockPromisesMu
  | unlockPromisesMu
  | mutateActiveSubs
  | mutatePromises
  | writeMessage
  | awaitPromise
  | routerOp
deriving DecidableEq, Repr

/-- Event sequence of one sendAndAwaitResponse call (identical lock structure
in spot/wsmarket and futures/wsuser): take promisesMu, store the promise,
release, write the frame, block on Await, then the deferred removal of the
promise under promisesMu again. -/
def sendAwaitEvents : List LockEv :=
  [.lockPromisesMu, .mutatePromises, .unlockPromisesMu, .writeMessage,
   .awaitPromise, .lockPromisesMu, .mutatePromises, .unlockPromisesMu]

/-- Event sequence of spot/wsmarket Subscribe on its success path: it takes
activeSubsMu up front (released by defer only on return), runs
sendAndAwaitResponse inside, then records the handle and registers with the
router. -/
def spotSubscribeEvents : List LockEv :=
  [.lockSubsMu] ++ sendAwaitEvents ++ [.mutateActiveSubs, .routerOp, .unlockSubsMu]

/-- Event sequence of spot/wsmarket subscriptionWrapper.Unsubscribe: the same
shape, taking activeSubsMu around the whole request plus deregistration. -/
def spotUnsubscribeEvents : List LockEv :=
  [.lockSubsMu] ++ sendAwaitEvents ++ [.mutateActiveSubs, .routerOp, .unlockSubsMu]

/-- Event sequence of spot/wsmarket sendPing: sendAndAwaitResponse alone,
with no activeSubsMu involvement. -/
def spotSendPingEvents : List LockEv := sendAwaitEvents

/-- Event sequence of futures/wsuser login: activeSubsMu is taken and held
around the whole sendAndAwaitResponse. -/
def wsuserLoginEvents : List LockEv :=
  [.lockSubsMu] ++ sendAwaitEvents ++ [.unlockSubsMu]

/-- Event sequence of futures/wsuser sendPing: activeSubsMu is taken and held
around the whole sendAndAwaitResponse. -/
def wsuserSendPingEvents : List LockEv :=
  [.lockSubsMu] ++ sendAwaitEvents ++ [.unlockSubsMu]

/-- Scan a trace keeping the nesting depth of the given lock; true when an
awaitPromise event occurs while the depth is positive. -/
def heldAtDepth (lock unlock : LockEv) : Nat → List LockEv → Bool
  | _, [] => false
  | d, e :: rest =>
    if e = LockEv.awaitPromise ∧ 0 < d then true
    else heldAtDepth lock unlock
      (if e = lock then d + 1 else if e = unlock then d - 1 else d) rest

/-- Whether the given lock is held at some blocking Await in the trace. -/
def heldDuringAwait (lock unlock : LockEv) (t : List LockEv) : Bool :=
  heldAtDepth lock unlock 0 t

end Locks

/-- Counterexample to claim C8: the exclusive lock protecting the
active-subscription map is held across the blocking Promise.Await in concrete
operations: spot Subscribe, spot Unsubscribe, futures-user login and
futures-user ping all hold activeSubsMu while awaiting their promise. -/
theorem subs_lock_held_across_await :
    Locks.heldDuringAwait .lockSubsMu .unlockSubsMu Locks.spotSubscribeEvents = true
    ∧ Locks.heldDuringAwait .lockSubsMu .unlockSubsMu Locks.spotUnsubscribeEvents = true
    ∧ Locks.heldDuringAwait .lockSubsMu .unlockSubsMu Locks.wsuserLoginEvents = true
    ∧ Locks.heldDuringAwait .lockSubsMu .unlockSubsMu Locks.wsuserSendPingEvents = true := by
  refine ⟨by decide, by decide, by decide, by decide⟩

/-- Claim C8 as amended: the lock protecting the pending-Promise slot/map
(promisesMu) is indeed held only for the duration of the map mutation and
never across a blocking await, in every one of the session operations; the
lock protecting the active-subscription map (activeSubsMu), however, is held
across the blocking await in spot Subscribe, spot Unsubscribe, futures-user
login and futures-user ping (only spot ping takes no such lock). -/
theorem promises_lock_never_held_across_await :
    Locks.heldDuringAwait .lockPromisesMu .unlockPromisesMu Locks.spotSubscribeEvents = false
    ∧ Locks.heldDuringAwait .lockPromisesMu .unlockPromisesMu Locks.spotUnsubscribeEvents = false
    ∧ Locks.heldDuringAwait .lockPromisesMu .unlockPromisesMu Locks.spotSendPingEvents = false
    ∧ Locks.heldDuringAwait .lockPromisesMu .unlockPromisesMu Locks.wsuserLoginEvents = false
    ∧ Locks.heldDuringAwait .lockPromisesMu .unlockPromisesMu Locks.wsuserSendPingEvents = false
    ∧ Locks.heldDuringAwait .lockSubsMu .unlockSubsMu Locks.spotSendPingEvents = false
    ∧ Locks.heldDuringAwait .lockSubsMu .unlockSubsMu Locks.spotSubscribeEvents = true
    ∧ Locks.heldDuringAwait .lockSubsMu .unlockSubsMu Locks.wsuserSendPingEvents = true := by
  refine ⟨by decide, by decide, by decide, by decide, by decide, by decide,
    by decide, by decide⟩

namespace Spot

/-- The counter value after k Inc calls, starting from the zero value a fresh
CounterImpl holds; each returned correlation id is counterAfter of the number
of Inc calls so far. -/
def counterAfter : Nat → Nat
  | 0 => 0
  | k + 1 => counterInc (counterAfter k)

/-- reservedPongID from spot/wsmarket: the id under which the ping promise is
registered and to which a PONG reply (a JSON frame with no id field) maps. -/
def reservedPongID : Nat := 0

end Spot

theorem counterAfter_closed (k : Nat) :
    Spot.counterAfter k = k % Spot.UINT64MOD := by
  induction k with
  | zero => rfl
  | succ k ih =>
    simp only [Spot.counterAfter, Spot.counterInc, ih, Nat.mod_add_mod]

/-- Counterexample to claim C10: the correlation counter is a uint64 and
wraps: after 2 to the 64 Inc calls the returned id is exactly the reserved
pong id 0, so "strictly positive, only increases" does not hold of every id
the counter can produce. -/
theorem request_id_wraps_to_pong_id :
    Spot.counterAfter Spot.UINT64MOD = Spot.reservedPongID := by
  rw [counterAfter_closed]
  simp [Spot.reservedPongID, Nat.mod_self]

/-- Claim C10 as amended: every correlation id among the first 2^64 - 1 issued
(that is, before the uint64 counter could wrap) equals its call index, hence
is strictly positive, never equal to the reserved pong id 0, and the sequence
of issued ids is strictly increasing; consequently, in any pending-promise
map whose keys were all issued by the counter below the wrap, the lookup for
the reserved pong id misses, and a ping reply (a frame with id 0) leaves such
a map, and the whole session, unchanged: it can never settle a subscription
promise. -/
theorem subscription_ids_avoid_pong_id (k : Nat) (h1 : 1 ≤ k)
    (h2 : k < Spot.UINT64MOD) :
    Spot.counterAfter k = k
    ∧ Spot.reservedPongID < Spot.counterAfter k
    ∧ (∀ j, 1 ≤ j → j < k → Spot.counterAfter j < Spot.counterAfter k)
    ∧ (∀ m : List (Nat × Wsutil.PromiseImp Spot.Message),
        (∀ q ∈ m, ∃ i, 1 ≤ i ∧ i < Spot.UINT64MOD ∧ q.1 = Spot.counterAfter i) →
        Spot.lookupProm m Spot.reservedPongID = none)
    ∧ (∀ s : Spot.SpotSession, ∀ msg : Spot.Message,
        msg.id = Spot.reservedPongID →
        (∀ q ∈ s.promisesMap,
          ∃ i, 1 ≤ i ∧ i < Spot.UINT64MOD ∧ q.1 = Spot.counterAfter i) →
        Spot.handleJSONMessage s msg = s) := by
  have heq : ∀ j, j < Spot.UINT64MOD → Spot.counterAfter j = j := by
    intro j hj
    rw [counterAfter_closed]
    exact Nat.mod_eq_of_lt hj
  have hlook : ∀ m : List (Nat × Wsutil.PromiseImp Spot.Message),
      (∀ q ∈ m, ∃ i, 1 ≤ i ∧ i < Spot.UINT64MOD ∧ q.1 = Spot.counterAfter i) →
      Spot.lookupProm m Spot.reservedPongID = none := by
    intro m
    induction m with
    | nil => intro _; rfl
    | cons q rest ih =>
      intro hall
      obtain ⟨k2, p⟩ := q
      obtain ⟨i, hi1, hi2, hiq⟩ := hall (k2, p) (List.mem_cons_self _ _)
      have hk2 : k2 ≠ Spot.reservedPongID := by
        simp only at hiq
        rw [hiq, heq i hi2]
        simp only [Spot.reservedPongID]
        omega
      simp only [Spot.lookupProm, if_neg hk2]
      exact ih (fun q2 hq2 => hall q2 (List.mem_cons_of_mem _ hq2))
  refine ⟨heq k h2, ?_, ?_, hlook, ?_⟩
  · rw [heq k h2]
    simpa [Spot.reservedPongID] using h1
  · intro j hj1 hjk
    rw [heq j (lt_trans hjk h2), heq k h2]
    exact hjk
  · intro s msg hmsg hall
    have := hlook s.promisesMap hall
    simp only [Spot.handleJSONMessage, hmsg, this]

/-- Witness for amended C10: the third issued id is 3, in particular nonzero. -/
theorem subscription_ids_avoid_pong_id_witness :
    Spot.counterAfter 3 = 3 :=
  (subscription_ids_avoid_pong_id 3 (by decide) (by decide)).1
